import Mathlib

/-!
Shallow embedding of the core ML pipeline of the sentinel-XAI repository
(src/backend/ml_pipeline.py) and proofs about its behaviour.

Modelling conventions:
  - A pandas table row is a `Row`: the ordered list of column names plus a
    cell function returning `Option Rat`, where `none` models a NaN cell and
    rationals stand in for float64 values.
  - Column assignment `df[c] = series` appends a new column at the end of the
    column list when absent, and overwrites the cell otherwise (`Row.set`).
  - `df[c].fillna(0)` is `Row.fillnaCol`.
  - The pandas KeyError raised by `df[[gpa_sem1, gpa_sem2, gpa_sem3]]` inside
    `engineer_features` when `gpa_sem2` is absent while `gpa_sem1` and
    `gpa_sem3` are present is modelled by returning `none`.
  - Python exceptions are modelled by the inductive `PyError`. The repository
    raises only `ValueError` (and pandas raises `KeyError`); the constructors
    `configurationError` and `modelNotTrainedError` exist solely so that claims
    naming those exception classes can be stated, and are proved unraised.
-/

abbrev Col := String

/-- One pandas table row: ordered column list and cells, `none` meaning NaN. -/
structure Row where
  cols : List Col
  val : Col → Option ℚ

/-- Column membership test, `c in df.columns`. -/
def Row.has (r : Row) (c : Col) : Bool := decide (c ∈ r.cols)

/-- Column assignment `df[c] = v`: a new column is appended at the end,
an existing one is overwritten. -/
def Row.set (r : Row) (c : Col) (v : Option ℚ) : Row :=
  { cols := if r.has c then r.cols else r.cols ++ [c],
    val := fun x => if x = c then v else r.val x }

/-- The pandas idiom `df[c] = df[c].fillna(0)`. -/
def Row.fillnaCol (r : Row) (c : Col) : Row :=
  r.set c (some ((r.val c).getD 0))

/-- NaN-propagating subtraction of two cells, pandas `df[a] - df[b]`. -/
def cellSub (a b : Option ℚ) : Option ℚ :=
  match a, b with
  | some x, some y => some (x - y)
  | _, _ => none

/-- NaN-propagating absolute difference, pandas `(df[a] - df[b]).abs()`. -/
def cellAbsSub (a b : Option ℚ) : Option ℚ :=
  match a, b with
  | some x, some y => some |x - y|
  | _, _ => none

/-- Lines 132-137: fillna(0) on each gpa semester column that is present. -/
def gpaFillStep (r : Row) : Row :=
  let r := if r.has "gpa_sem1" then r.fillnaCol "gpa_sem1" else r
  let r := if r.has "gpa_sem2" then r.fillnaCol "gpa_sem2" else r
  if r.has "gpa_sem3" then r.fillnaCol "gpa_sem3" else r

/-- Lines 139-145: gpa_decline and gpa_latest, guarded by the presence of
gpa_sem1 and gpa_sem3 (the KeyError case is handled by the caller). -/
def gpaDeclineStep (r : Row) : Row :=
  if r.has "gpa_sem1" && r.has "gpa_sem3" then
    let r := r.set "gpa_decline" (cellSub (r.val "gpa_sem1") (r.val "gpa_sem3"))
    let r := r.fillnaCol "gpa_decline"
    let latest := ((r.val "gpa_sem1" <|> r.val "gpa_sem2") <|> r.val "gpa_sem3")
      <|> r.val "gpa_sem1"
    r.set "gpa_latest" latest
  else r

/-- Lines 147-148: absolute consecutive delta between semesters 1 and 2. -/
def gpaSem2DeclineStep (r : Row) : Row :=
  if r.has "gpa_sem1" && r.has "gpa_sem2" then
    r.set "gpa_sem2_decline" (cellAbsSub (r.val "gpa_sem1") (r.val "gpa_sem2"))
  else r

/-- Lines 149-150: absolute consecutive delta between semesters 2 and 3. -/
def gpaSem3DeclineStep (r : Row) : Row :=
  if r.has "gpa_sem2" && r.has "gpa_sem3" then
    r.set "gpa_sem3_decline" (cellAbsSub (r.val "gpa_sem2") (r.val "gpa_sem3"))
  else r

/-- Lines 153-156: attendance fillna and the two attendance flags. -/
def attendanceStep (r : Row) : Row :=
  if r.has "attendance" then
    let r := r.fillnaCol "attendance"
    let a := (r.val "attendance").getD 0
    let r := r.set "attendance_critical" (some (if a < 50 then 1 else 0))
    r.set "attendance_low" (some (if 50 ≤ a ∧ a < 70 then 1 else 0))
  else r

/-- Lines 158-162: LMS fillna and the two LMS flags. -/
def lmsStep (r : Row) : Row :=
  if r.has "lms_logins" then
    let r := r.fillnaCol "lms_logins"
    let a := (r.val "lms_logins").getD 0
    let r := r.set "lms_very_low" (some (if a ≤ 5 then 1 else 0))
    r.set "lms_decline" (some (if a < 10 then 1 else 0))
  else r

/-- Lines 165-168: fillna on facility_access and library_visits. -/
def campusFillStep (r : Row) : Row :=
  let r := if r.has "facility_access" then r.fillnaCol "facility_access" else r
  if r.has "library_visits" then r.fillnaCol "library_visits" else r

/-- Lines 170-172: campus_engagement and campus_isolated. -/
def campusStep (r : Row) : Row :=
  if r.has "facility_access" && r.has "library_visits" then
    let ce := (r.val "facility_access").getD 0 + (r.val "library_visits").getD 0
    let r := r.set "campus_engagement" (some ce)
    r.set "campus_isolated" (some (if ce < 3 then 1 else 0))
  else r

/-- Lines 175-177: after-hours WiFi fillna and flag. -/
def afterHoursStep (r : Row) : Row :=
  if r.has "after_hours_wifi" then
    let r := r.fillnaCol "after_hours_wifi"
    let a := (r.val "after_hours_wifi").getD 0
    r.set "high_after_hours" (some (if 10 < a then 1 else 0))
  else r

/-- Lines 180-182: assignment submissions fillna and flag. -/
def assignStep (r : Row) : Row :=
  if r.has "assignment_submissions" then
    let r := r.fillnaCol "assignment_submissions"
    let a := (r.val "assignment_submissions").getD 0
    r.set "low_assignments" (some (if a < 5 then 1 else 0))
  else r

/-- NaN-propagating sum of a list of cells, the pandas `sum(series_list)`. -/
def osum (l : List (Option ℚ)) : Option ℚ :=
  l.foldr (fun x acc =>
    match x, acc with
    | some a, some b => some (a + b)
    | _, _ => none) (some 0)

/-- The risk_factors list built at lines 185-195: the weighted flag series
that are present, in source order. -/
def behavioralFactors (r : Row) : List (Option ℚ) :=
  (if r.has "attendance_critical" then
    [(r.val "attendance_critical").map (fun v => v * 3)] else []) ++
  (if r.has "lms_very_low" then
    [(r.val "lms_very_low").map (fun v => v * 2)] else []) ++
  (if r.has "campus_isolated" then
    [(r.val "campus_isolated").map (fun v => v * 2)] else []) ++
  (if r.has "high_after_hours" then [r.val "high_after_hours"] else []) ++
  (if r.has "low_assignments" then [r.val "low_assignments"] else [])

/-- Lines 184-198: the composite behavioral risk score, the sum of the
contributing weighted flags divided by their count, computed only when at
least one flag is present. -/
def behavioralStep (r : Row) : Row :=
  if (behavioralFactors r).length ≠ 0 then
    r.set "behavioral_risk_score"
      ((osum (behavioralFactors r)).map
        (fun s => s / ((behavioralFactors r).length : ℚ)))
  else r

/-- The chain of derivation steps between the gpa fills and the composite
behavioral score, in source order (lines 139-182). -/
def preBehavioral (r : Row) : Row :=
  assignStep (afterHoursStep (campusStep (campusFillStep (lmsStep
    (attendanceStep (gpaSem3DeclineStep (gpaSem2DeclineStep
      (gpaDeclineStep r))))))))

/-- MLPipeline.engineer_features (lines 117-200), row-wise. Returns `none` when
the pandas indexing at line 144 raises KeyError (gpa_sem1 and gpa_sem3 present
but gpa_sem2 absent). -/
def engineer_features (r0 : Row) : Option Row :=
  let r := gpaFillStep r0
  if r.has "gpa_sem1" && r.has "gpa_sem3" && !(r.has "gpa_sem2") then none
  else some (behavioralStep (preBehavioral r))

/-- The fixed candidate feature list of MLPipeline.prepare_features
(lines 207-215). -/
def numeric_features : List Col :=
  ["gpa_sem1", "gpa_sem2", "gpa_sem3",
   "gpa_decline", "gpa_sem2_decline", "gpa_sem3_decline",
   "attendance", "attendance_critical", "attendance_low",
   "lms_logins", "lms_very_low",
   "facility_access", "library_visits", "campus_engagement", "campus_isolated",
   "after_hours_wifi", "assignment_submissions", "low_assignments",
   "behavioral_risk_score"]

/-- MLPipeline.prepare_features (lines 202-226): filter the candidate list to
the columns present in the table, select those cells and fill NaN with 0.
Returns the computed feature_cols (which the method stores into
self.feature_names) together with the numeric vector. -/
def prepare_features (r : Row) : List Col × List ℚ :=
  let fc := numeric_features.filter (fun c => r.has c)
  (fc, fc.map (fun c => (r.val c).getD 0))

/-- Python exceptions that the modelled code paths can raise. The repository
defines no custom exception classes; the `configurationError` and
`modelNotTrainedError` constructors model classes named by the specification
and are proved never to be raised. -/
inductive PyError where
  | valueError (msg : String)
  | keyError (msg : String)
  | configurationError (msg : String)
  | modelNotTrainedError (msg : String)
deriving DecidableEq

/-- The metadata sidecar written by MLPipeline.save_model (lines 584-588). -/
structure Metadata where
  feature_names : List Col
  last_trained : Option String
  is_trained : Bool
deriving DecidableEq

/-- Durable storage for the model blob and its metadata sidecar; the blob
content is opaque to the repository logic. -/
structure ModelStore where
  modelBlob : Option Unit
  metadata : Option Metadata
deriving DecidableEq

/-- The MLPipeline instance state set up in __init__ (lines 39-45), restricted
to the fields the modelled paths read or write. -/
structure PipelineState where
  model : Option Unit
  feature_names : List Col
  is_trained : Bool
  last_trained : Option String
deriving DecidableEq

/-- The freshly constructed pipeline (lines 39-45). -/
def initState : PipelineState :=
  { model := none, feature_names := [], is_trained := false,
    last_trained := none }

/-- MLPipeline.save_model (lines 571-596): returns False when no model is
resident, otherwise writes the blob and the metadata sidecar. -/
def save_model (st : PipelineState) (store : ModelStore) : Bool × ModelStore :=
  match st.model with
  | none => (false, store)
  | some _ =>
    (true,
     { modelBlob := some (),
       metadata := some
         { feature_names := st.feature_names,
           last_trained := st.last_trained,
           is_trained := st.is_trained } })

/-- MLPipeline.load_model (lines 598-619): loading a missing blob raises inside
joblib and is caught, returning False; otherwise the model is set and, when the
metadata sidecar exists, feature_names, last_trained and is_trained are
restored from it. -/
def load_model (st : PipelineState) (store : ModelStore) :
    Bool × PipelineState :=
  match store.modelBlob with
  | none => (false, st)
  | some _ =>
    let st := { st with model := some () }
    match store.metadata with
    | none => (true, st)
    | some m =>
      (true,
       { st with feature_names := m.feature_names,
                 last_trained := m.last_trained,
                 is_trained := m.is_trained })

/-- The guard of MLPipeline.predict (lines 362-365): try to load a saved model
when not trained, raising ValueError when loading fails. -/
def predictGuard (st : PipelineState) (store : ModelStore) :
    Except PyError PipelineState :=
  if st.is_trained then .ok st
  else
    let p := load_model st store
    if p.1 then .ok p.2
    else .error (.valueError "Model not trained. Call train_model() first.")

/-- The guard of MLPipeline.predict_single (lines 404-406). -/
def predictSingleGuard (st : PipelineState) (store : ModelStore) :
    Except PyError PipelineState :=
  if st.is_trained then .ok st
  else
    let p := load_model st store
    if p.1 then .ok p.2
    else .error (.valueError "Model not trained")

/-- Outcome of the module-level predict_student helper: either the literal
error dictionary returned as a normal value, or entry into
pipeline.predict_single with the resulting state. -/
inductive PredictStudentOutcome where
  | errorDict (msg : String)
  | proceeds (st : PipelineState)
deriving DecidableEq

/-- The module-level predict_student helper (lines 693-710): when the pipeline
is not trained it calls load_model ignoring the result, and if still not
trained it returns the dictionary with key error as a normal value instead of
raising. -/
def predict_student (st : PipelineState) (store : ModelStore) :
    Except PyError PredictStudentOutcome :=
  let st1 := if st.is_trained then st else (load_model st store).2
  if st1.is_trained then (predictSingleGuard st1 store).map .proceeds
  else .ok (.errorDict "Model not trained")

/-- Feature selection as performed inside MLPipeline.predict (lines 367-369):
engineer_features then prepare_features, which overwrites
self.feature_names with the recomputed list. -/
def predictSelect (st : PipelineState) (r : Row) :
    Option (PipelineState × List Col × List ℚ) :=
  (engineer_features r).map (fun r1 =>
    let p := prepare_features r1
    ({ st with feature_names := p.1 }, p.1, p.2))

/-- The feature-name list computed while training on a table with the given
row shape: train_model calls engineer_features then prepare_features
(lines 248-249), which stores the filtered list into self.feature_names. -/
def train_feature_names (r : Row) : Option (List Col) :=
  (engineer_features r).map (fun r1 => (prepare_features r1).1)

/-- The control flow of MLPipeline.train_model relevant to input validation
(lines 248-257): engineer features (KeyError propagates), prepare the matrix,
then raise ValueError when the risk_label column is absent. Fitting the
external XGBoost model lies outside the repository. -/
def train_model (r : Row) : Except PyError (List Col × List ℚ) :=
  match engineer_features r with
  | none =>
    .error (.keyError "None of the gpa_sem2 columns are in the index")
  | some r1 =>
    let p := prepare_features r1
    if r1.has "risk_label" then .ok p
    else .error (.valueError "No risk_label column found in data")

/-- Test whether a result is a raised ConfigurationError. -/
def isConfigError {α : Type} : Except PyError α → Bool
  | .error (.configurationError _) => true
  | _ => false

/-- Test whether a result is a raised exception at all. -/
def isRaised {α : Type} : Except PyError α → Bool
  | .error _ => true
  | _ => false

/-- np.clip(x, 0, 1) at line 381. -/
def clip01 (x : ℚ) : ℚ := min (max x 0) 1

/-- Risk score computation at lines 380-381: probability of class high plus
half of the probability of class medium, clipped to the unit interval. The
probability of class low is carried but unused, mirroring the probability
matrix columns. -/
def risk_score (pLow pMedium pHigh : ℚ) : ℚ :=
  clip01 (pHigh + 0.5 * pMedium)

/-- The tier lambda at lines 387-389. -/
def tierOf (x : ℚ) : String :=
  if 0.7 ≤ x then "high" else if 0.4 ≤ x then "medium" else "low"

/-- Score and tier of one prediction row as computed by MLPipeline.predict
from the class probabilities (lines 378-389). -/
def predictScoreTier (pLow pMedium pHigh : ℚ) : ℚ × String :=
  let s := risk_score pLow pMedium pHigh
  (s, tierOf s)

/-- One entry of the SHAP explanation list built at lines 465-470. -/
structure ShapEntry where
  feature : String
  value : ℚ
  dir : Int
  feature_value : ℚ
deriving DecidableEq

/-- The explanation entries in original feature order (the loop at lines
457-470): one entry per feature name paired with its SHAP value, with
direction flag 1 when the value is strictly positive and -1 otherwise, and the
raw feature value looked up in the instance dictionary with default 0. The
label formatter is passed in, abstracting _format_feature_name. -/
def mkShapEntries (fmt : Col → String) (x : Col → Option ℚ)
    (names : List Col) (shapRow : List ℚ) : List ShapEntry :=
  (names.zip shapRow).map (fun p =>
    { feature := fmt p.1,
      value := p.2,
      dir := if (0 : ℚ) < p.2 then 1 else -1,
      feature_value := (x p.1).getD 0 })

/-- Insert an element into a list sorted by descending key, placing it before
the first element whose key is not larger: the semantics of one step of a
stable descending sort. -/
def insertDesc {α : Type} (key : α → ℚ) (x : α) : List α → List α
  | [] => [x]
  | h :: t => if key h ≤ key x then x :: h :: t else h :: insertDesc key x t

/-- Stable sort by descending key: the semantics of the Python call
list.sort(key=..., reverse=True), which is stable. -/
def stableSortDesc {α : Type} (key : α → ℚ) : List α → List α
  | [] => []
  | h :: t => insertDesc key h (stableSortDesc key t)

/-- MLPipeline.generate_shap_explanation (lines 439-475): build the entries,
stably sort by descending absolute contribution, keep the top 6. -/
def generate_shap_explanation (fmt : Col → String) (x : Col → Option ℚ)
    (names : List Col) (shapRow : List ℚ) : List ShapEntry :=
  (stableSortDesc (fun e => |e.value|) (mkShapEntries fmt x names shapRow)).take 6

/-- Build a row from an association list of columns and cells. -/
def Row.ofList (l : List (Col × Option ℚ)) : Row :=
  { cols := l.map Prod.fst,
    val := fun c => ((l.find? (fun p => p.1 = c)).map Prod.snd).getD none }

/-- The column names that engineer_features itself can create. -/
def engineeredCols : List Col :=
  ["gpa_decline", "gpa_latest", "gpa_sem2_decline", "gpa_sem3_decline",
   "attendance_critical", "attendance_low", "lms_very_low", "lms_decline",
   "campus_engagement", "campus_isolated", "high_after_hours",
   "low_assignments", "behavioral_risk_score"]

/-- The five binary flags contributing to the behavioral risk score. -/
def flagCols : List Col :=
  ["attendance_critical", "lms_very_low", "campus_isolated",
   "high_after_hours", "low_assignments"]

/-- The per-flag weights of the behavioral risk score as named in the
specification. -/
def flagWeight (c : Col) : ℚ :=
  if c = "attendance_critical" then 3
  else if c = "lms_very_low" then 2
  else if c = "campus_isolated" then 2
  else 1

/-- Training table row shape used to exhibit feature skew: attendance and LMS
logins present together with the target label. -/
def c1TrainRow : Row :=
  Row.ofList [("attendance", some 80), ("lms_logins", some 3),
              ("risk_label", some 0)]

/-- Inference row missing the attendance column. -/
def c1InferRow : Row := Row.ofList [("lms_logins", some 3)]

/-- A row whose first-semester GPA cell is NaN while the third-semester GPA
is 3. -/
def c3Row : Row :=
  Row.ofList [("gpa_sem1", none), ("gpa_sem2", some 2), ("gpa_sem3", some 3)]

/-- A complete three-semester GPA row with values 3.6, 3.2, 2.4. -/
def c3FullRow : Row :=
  Row.ofList [("gpa_sem1", some 3.6), ("gpa_sem2", some 3.2),
              ("gpa_sem3", some 2.4)]

/-- A raw row with critical attendance and very low LMS engagement. -/
def c4Row : Row :=
  Row.ofList [("attendance", some 40), ("lms_logins", some 3)]

/-- A row without the risk_label target column. -/
def c5Row : Row := Row.ofList [("attendance", some 80)]

/-- The empty durable store: no persisted model, no metadata sidecar. -/
def emptyStore : ModelStore := { modelBlob := none, metadata := none }

/-! Basic lemmas about row updates. -/

theorem Row.set_val_eq (r : Row) (c : Col) (v : Option ℚ) :
    (r.set c v).val c = v := by
  simp [Row.set]

theorem Row.set_val_ne (r : Row) (c : Col) (v : Option ℚ) (x : Col)
    (h : x ≠ c) : (r.set c v).val x = r.val x := by
  simp [Row.set, h]

theorem Row.set_has (r : Row) (c : Col) (v : Option ℚ) (x : Col) :
    (r.set c v).has x = (r.has x || x == c) := by
  simp only [Row.set, Row.has]
  split
  next hc =>
    have hc2 : c ∈ r.cols := of_decide_eq_true hc
    by_cases hx : x = c
    · subst hx; simp [hc2]
    · simp [hx]
  next hc =>
    by_cases hx : x = c
    · subst hx; simp [List.mem_append]
    · simp [hx, List.mem_append]

theorem Row.set_has_eq (r : Row) (c : Col) (v : Option ℚ) :
    (r.set c v).has c = true := by
  simp [Row.set_has]

theorem Row.set_has_ne (r : Row) (c : Col) (v : Option ℚ) (x : Col)
    (h : x ≠ c) : (r.set c v).has x = r.has x := by
  simp [Row.set_has, h]

theorem Row.fillnaCol_val_eq (r : Row) (c : Col) :
    (r.fillnaCol c).val c = some ((r.val c).getD 0) := by
  simp [Row.fillnaCol, Row.set_val_eq]

theorem Row.fillnaCol_val_ne (r : Row) (c : Col) (x : Col) (h : x ≠ c) :
    (r.fillnaCol c).val x = r.val x := by
  simp [Row.fillnaCol, Row.set_val_ne, h]

theorem Row.fillnaCol_has (r : Row) (c : Col) (x : Col) :
    (r.fillnaCol c).has x = (r.has x || x == c) := by
  simp [Row.fillnaCol, Row.set_has]

theorem Row.fillnaCol_has_ne (r : Row) (c : Col) (x : Col) (h : x ≠ c) :
    (r.fillnaCol c).has x = r.has x := by
  simp [Row.fillnaCol_has, h]

/-! Lemmas about the guarded fillna idiom and each engineering step. -/

theorem guardFill_has (r : Row) (c x : Col) :
    (if r.has c then r.fillnaCol c else r).has x = r.has x := by
  split
  next h =>
    by_cases hx : x = c
    · subst hx; simp [Row.fillnaCol_has, h]
    · simp [Row.fillnaCol_has_ne, hx]
  · rfl

theorem guardFill_val_ne (r : Row) (c x : Col) (h : x ≠ c) :
    (if r.has c then r.fillnaCol c else r).val x = r.val x := by
  split
  · simp [Row.fillnaCol_val_ne, h]
  · rfl

theorem guardFill_val_eq (r : Row) (c : Col) (h : r.has c = true) :
    (if r.has c then r.fillnaCol c else r).val c
      = some ((r.val c).getD 0) := by
  rw [if_pos h]; exact Row.fillnaCol_val_eq r c

theorem gpaFillStep_has (r : Row) (x : Col) :
    (gpaFillStep r).has x = r.has x := by
  unfold gpaFillStep
  rw [guardFill_has, guardFill_has, guardFill_has]

theorem gpaFillStep_val_ne (r : Row) (x : Col) (h1 : x ≠ "gpa_sem1")
    (h2 : x ≠ "gpa_sem2") (h3 : x ≠ "gpa_sem3") :
    (gpaFillStep r).val x = r.val x := by
  simp only [gpaFillStep]
  rw [guardFill_val_ne _ _ _ h3, guardFill_val_ne _ _ _ h2,
    guardFill_val_ne _ _ _ h1]

theorem gpaFillStep_val1 (r : Row) (h : r.has "gpa_sem1" = true) :
    (gpaFillStep r).val "gpa_sem1" = some ((r.val "gpa_sem1").getD 0) := by
  simp only [gpaFillStep]
  rw [guardFill_val_ne _ _ _ (by decide), guardFill_val_ne _ _ _ (by decide),
    guardFill_val_eq _ _ h]

theorem gpaFillStep_val3 (r : Row) (h : r.has "gpa_sem3" = true) :
    (gpaFillStep r).val "gpa_sem3" = some ((r.val "gpa_sem3").getD 0) := by
  simp only [gpaFillStep]
  rw [guardFill_val_eq]
  · rw [guardFill_val_ne _ _ _ (by decide), guardFill_val_ne _ _ _ (by decide)]
  · rw [guardFill_has, guardFill_has]; exact h

theorem gpaDeclineStep_val_ne (r : Row) (x : Col) (h1 : x ≠ "gpa_decline")
    (h2 : x ≠ "gpa_latest") :
    (gpaDeclineStep r).val x = r.val x := by
  unfold gpaDeclineStep
  split
  · simp [Row.set_val_ne, Row.fillnaCol_val_ne, h1, h2]
  · rfl

theorem gpaDeclineStep_has_ne (r : Row) (x : Col) (h1 : x ≠ "gpa_decline")
    (h2 : x ≠ "gpa_latest") :
    (gpaDeclineStep r).has x = r.has x := by
  unfold gpaDeclineStep
  split
  · simp [Row.set_has_ne, Row.fillnaCol_has, h1, h2]
  · rfl

theorem gpaDeclineStep_val_decline (r : Row)
    (h : (r.has "gpa_sem1" && r.has "gpa_sem3") = true) :
    (gpaDeclineStep r).val "gpa_decline"
      = some ((cellSub (r.val "gpa_sem1") (r.val "gpa_sem3")).getD 0) := by
  unfold gpaDeclineStep
  rw [if_pos h]
  simp [Row.set_val_ne, Row.fillnaCol, Row.set_val_eq]

theorem gpaDeclineStep_has_decline (r : Row) :
    (gpaDeclineStep r).has "gpa_decline"
      = (r.has "gpa_sem1" && r.has "gpa_sem3" || r.has "gpa_decline") := by
  unfold gpaDeclineStep
  split
  next h => simp [Row.set_has, Row.fillnaCol_has, h]
  next h =>
    rw [Bool.not_eq_true] at h
    simp [h]

theorem gpaSem2DeclineStep_val_ne (r : Row) (x : Col)
    (h : x ≠ "gpa_sem2_decline") :
    (gpaSem2DeclineStep r).val x = r.val x := by
  unfold gpaSem2DeclineStep
  split
  · simp [Row.set_val_ne, h]
  · rfl

theorem gpaSem2DeclineStep_has_ne (r : Row) (x : Col)
    (h : x ≠ "gpa_sem2_decline") :
    (gpaSem2DeclineStep r).has x = r.has x := by
  unfold gpaSem2DeclineStep
  split
  · simp [Row.set_has_ne, h]
  · rfl

theorem gpaSem3DeclineStep_val_ne (r : Row) (x : Col)
    (h : x ≠ "gpa_sem3_decline") :
    (gpaSem3DeclineStep r).val x = r.val x := by
  unfold gpaSem3DeclineStep
  split
  · simp [Row.set_val_ne, h]
  · rfl

theorem gpaSem3DeclineStep_has_ne (r : Row) (x : Col)
    (h : x ≠ "gpa_sem3_decline") :
    (gpaSem3DeclineStep r).has x = r.has x := by
  unfold gpaSem3DeclineStep
  split
  · simp [Row.set_has_ne, h]
  · rfl

theorem attendanceStep_val_ne (r : Row) (x : Col) (h1 : x ≠ "attendance")
    (h2 : x ≠ "attendance_critical") (h3 : x ≠ "attendance_low") :
    (attendanceStep r).val x = r.val x := by
  unfold attendanceStep
  split
  · simp [Row.set_val_ne, Row.fillnaCol_val_ne, h1, h2, h3]
  · rfl

theorem attendanceStep_has_ne (r : Row) (x : Col)
    (h2 : x ≠ "attendance_critical") (h3 : x ≠ "attendance_low") :
    (attendanceStep r).has x = r.has x := by
  unfold attendanceStep
  split
  next h =>
    by_cases hx : x = "attendance"
    · subst hx; simp [Row.set_has_ne, Row.fillnaCol_has, h2, h3, h]
    · simp [Row.set_has_ne, Row.fillnaCol_has_ne, h2, h3, hx]
  · rfl

theorem attendanceStep_has_crit (r : Row) :
    (attendanceStep r).has "attendance_critical"
      = (r.has "attendance" || r.has "attendance_critical") := by
  unfold attendanceStep
  split
  next h => simp [Row.set_has_ne, Row.set_has_eq, h]
  next h =>
    rw [Bool.not_eq_true] at h
    simp [h]

theorem attendanceStep_val_crit (r : Row) (h : r.has "attendance" = true) :
    (attendanceStep r).val "attendance_critical"
      = some (if (r.val "attendance").getD 0 < 50 then 1 else 0) := by
  unfold attendanceStep
  rw [if_pos h]
  simp [Row.set_val_ne, Row.set_val_eq, Row.fillnaCol_val_eq]

theorem lmsStep_val_ne (r : Row) (x : Col) (h1 : x ≠ "lms_logins")
    (h2 : x ≠ "lms_very_low") (h3 : x ≠ "lms_decline") :
    (lmsStep r).val x = r.val x := by
  unfold lmsStep
  split
  · simp [Row.set_val_ne, Row.fillnaCol_val_ne, h1, h2, h3]
  · rfl

theorem lmsStep_has_ne (r : Row) (x : Col)
    (h2 : x ≠ "lms_very_low") (h3 : x ≠ "lms_decline") :
    (lmsStep r).has x = r.has x := by
  unfold lmsStep
  split
  next h =>
    by_cases hx : x = "lms_logins"
    · subst hx; simp [Row.set_has_ne, Row.fillnaCol_has, h2, h3, h]
    · simp [Row.set_has_ne, Row.fillnaCol_has_ne, h2, h3, hx]
  · rfl

theorem lmsStep_has_vlow (r : Row) :
    (lmsStep r).has "lms_very_low"
      = (r.has "lms_logins" || r.has "lms_very_low") := by
  unfold lmsStep
  split
  next h => simp [Row.set_has_ne, Row.set_has_eq, h]
  next h =>
    rw [Bool.not_eq_true] at h
    simp [h]

theorem lmsStep_val_vlow (r : Row) (h : r.has "lms_logins" = true) :
    (lmsStep r).val "lms_very_low"
      = some (if (r.val "lms_logins").getD 0 ≤ 5 then 1 else 0) := by
  unfold lmsStep
  rw [if_pos h]
  simp [Row.set_val_ne, Row.set_val_eq, Row.fillnaCol_val_eq]

theorem campusFillStep_has (r : Row) (x : Col) :
    (campusFillStep r).has x = r.has x := by
  unfold campusFillStep
  rw [guardFill_has, guardFill_has]

theorem campusFillStep_val_ne (r : Row) (x : Col)
    (h1 : x ≠ "facility_access") (h2 : x ≠ "library_visits") :
    (campusFillStep r).val x = r.val x := by
  unfold campusFillStep
  rw [guardFill_val_ne _ _ _ h2, guardFill_val_ne _ _ _ h1]

theorem campusFillStep_val_fac (r : Row) (h : r.has "facility_access" = true) :
    (campusFillStep r).val "facility_access"
      = some ((r.val "facility_access").getD 0) := by
  unfold campusFillStep
  rw [guardFill_val_ne _ _ _ (by decide), guardFill_val_eq _ _ h]

theorem campusFillStep_val_lib (r : Row) (h : r.has "library_visits" = true) :
    (campusFillStep r).val "library_visits"
      = some ((r.val "library_visits").getD 0) := by
  unfold campusFillStep
  rw [guardFill_val_eq]
  · rw [guardFill_val_ne _ _ _ (by decide)]
  · rw [guardFill_has]; exact h

theorem campusStep_val_ne (r : Row) (x : Col)
    (h1 : x ≠ "campus_engagement") (h2 : x ≠ "campus_isolated") :
    (campusStep r).val x = r.val x := by
  unfold campusStep
  split
  · simp [Row.set_val_ne, h1, h2]
  · rfl

theorem campusStep_has_ne (r : Row) (x : Col)
    (h1 : x ≠ "campus_engagement") (h2 : x ≠ "campus_isolated") :
    (campusStep r).has x = r.has x := by
  unfold campusStep
  split
  · simp [Row.set_has_ne, h1, h2]
  · rfl

theorem campusStep_has_iso (r : Row) :
    (campusStep r).has "campus_isolated"
      = (r.has "facility_access" && r.has "library_visits"
         || r.has "campus_isolated") := by
  unfold campusStep
  split
  next h => simp [Row.set_has_ne, Row.set_has_eq, h]
  next h =>
    rw [Bool.not_eq_true] at h
    simp [h]

theorem campusStep_val_iso (r : Row)
    (h : (r.has "facility_access" && r.has "library_visits") = true) :
    (campusStep r).val "campus_isolated"
      = some (if (r.val "facility_access").getD 0
              + (r.val "library_visits").getD 0 < 3 then 1 else 0) := by
  unfold campusStep
  rw [if_pos h]
  simp [Row.set_val_ne, Row.set_val_eq]

theorem afterHoursStep_val_ne (r : Row) (x : Col)
    (h1 : x ≠ "after_hours_wifi") (h2 : x ≠ "high_after_hours") :
    (afterHoursStep r).val x = r.val x := by
  unfold afterHoursStep
  split
  · simp [Row.set_val_ne, Row.fillnaCol_val_ne, h1, h2]
  · rfl

theorem afterHoursStep_has_ne (r : Row) (x : Col)
    (h2 : x ≠ "high_after_hours") :
    (afterHoursStep r).has x = r.has x := by
  unfold afterHoursStep
  split
  next h =>
    by_cases hx : x = "after_hours_wifi"
    · subst hx; simp [Row.set_has_ne, Row.fillnaCol_has, h2, h]
    · simp [Row.set_has_ne, Row.fillnaCol_has_ne, h2, hx]
  · rfl

theorem afterHoursStep_has_high (r : Row) :
    (afterHoursStep r).has "high_after_hours"
      = (r.has "after_hours_wifi" || r.has "high_after_hours") := by
  unfold afterHoursStep
  split
  next h => simp [Row.set_has_eq, h]
  next h =>
    rw [Bool.not_eq_true] at h
    simp [h]

theorem afterHoursStep_val_high (r : Row)
    (h : r.has "after_hours_wifi" = true) :
    (afterHoursStep r).val "high_after_hours"
      = some (if 10 < (r.val "after_hours_wifi").getD 0 then 1 else 0) := by
  unfold afterHoursStep
  rw [if_pos h]
  simp [Row.set_val_eq, Row.fillnaCol_val_eq]

theorem assignStep_val_ne (r : Row) (x : Col)
    (h1 : x ≠ "assignment_submissions") (h2 : x ≠ "low_assignments") :
    (assignStep r).val x = r.val x := by
  unfold assignStep
  split
  · simp [Row.set_val_ne, Row.fillnaCol_val_ne, h1, h2]
  · rfl

theorem assignStep_has_ne (r : Row) (x : Col) (h2 : x ≠ "low_assignments") :
    (assignStep r).has x = r.has x := by
  unfold assignStep
  split
  next h =>
    by_cases hx : x = "assignment_submissions"
    · subst hx; simp [Row.set_has_ne, Row.fillnaCol_has, h2, h]
    · simp [Row.set_has_ne, Row.fillnaCol_has_ne, h2, hx]
  · rfl

theorem assignStep_has_low (r : Row) :
    (assignStep r).has "low_assignments"
      = (r.has "assignment_submissions" || r.has "low_assignments") := by
  unfold assignStep
  split
  next h => simp [Row.set_has_eq, h]
  next h =>
    rw [Bool.not_eq_true] at h
    simp [h]

theorem assignStep_val_low (r : Row)
    (h : r.has "assignment_submissions" = true) :
    (assignStep r).val "low_assignments"
      = some (if (r.val "assignment_submissions").getD 0 < 5
              then 1 else 0) := by
  unfold assignStep
  rw [if_pos h]
  simp [Row.set_val_eq, Row.fillnaCol_val_eq]

theorem ite_set_val_ne (p : Prop) [Decidable p] (r : Row) (c : Col)
    (v : Option ℚ) (x : Col) (h : x ≠ c) :
    (if p then r.set c v else r).val x = r.val x := by
  split
  · exact Row.set_val_ne r c v x h
  · rfl

theorem ite_set_has_ne (p : Prop) [Decidable p] (r : Row) (c : Col)
    (v : Option ℚ) (x : Col) (h : x ≠ c) :
    (if p then r.set c v else r).has x = r.has x := by
  split
  · exact Row.set_has_ne r c v x h
  · rfl

theorem behavioralStep_val_ne (r : Row) (x : Col)
    (h : x ≠ "behavioral_risk_score") :
    (behavioralStep r).val x = r.val x := by
  simp only [behavioralStep]
  exact ite_set_val_ne _ _ _ _ _ h

theorem behavioralStep_has_ne (r : Row) (x : Col)
    (h : x ≠ "behavioral_risk_score") :
    (behavioralStep r).has x = r.has x := by
  simp only [behavioralStep]
  exact ite_set_has_ne _ _ _ _ _ h

/-! Composition lemmas through the engineering chain. -/

theorem gpaSteps_has_ne (r : Row) (x : Col) (h1 : x ≠ "gpa_decline")
    (h2 : x ≠ "gpa_latest") (h3 : x ≠ "gpa_sem2_decline")
    (h4 : x ≠ "gpa_sem3_decline") :
    (gpaSem3DeclineStep (gpaSem2DeclineStep (gpaDeclineStep r))).has x
      = r.has x := by
  rw [gpaSem3DeclineStep_has_ne _ _ h4, gpaSem2DeclineStep_has_ne _ _ h3,
    gpaDeclineStep_has_ne _ _ h1 h2]

theorem gpaSteps_val_ne (r : Row) (x : Col) (h1 : x ≠ "gpa_decline")
    (h2 : x ≠ "gpa_latest") (h3 : x ≠ "gpa_sem2_decline")
    (h4 : x ≠ "gpa_sem3_decline") :
    (gpaSem3DeclineStep (gpaSem2DeclineStep (gpaDeclineStep r))).val x
      = r.val x := by
  rw [gpaSem3DeclineStep_val_ne _ _ h4, gpaSem2DeclineStep_val_ne _ _ h3,
    gpaDeclineStep_val_ne _ _ h1 h2]

theorem preBehavioral_has_crit (r : Row) :
    (preBehavioral r).has "attendance_critical"
      = (r.has "attendance" || r.has "attendance_critical") := by
  unfold preBehavioral
  rw [assignStep_has_ne _ _ (by decide), afterHoursStep_has_ne _ _ (by decide),
    campusStep_has_ne _ _ (by decide) (by decide), campusFillStep_has,
    lmsStep_has_ne _ _ (by decide) (by decide), attendanceStep_has_crit,
    gpaSteps_has_ne _ "attendance" (by decide) (by decide) (by decide)
      (by decide),
    gpaSteps_has_ne _ "attendance_critical" (by decide) (by decide) (by decide)
      (by decide)]

theorem preBehavioral_val_crit (r : Row) (h : r.has "attendance" = true) :
    (preBehavioral r).val "attendance_critical"
      = some (if (r.val "attendance").getD 0 < 50 then 1 else 0) := by
  unfold preBehavioral
  rw [assignStep_val_ne _ _ (by decide) (by decide),
    afterHoursStep_val_ne _ _ (by decide) (by decide),
    campusStep_val_ne _ _ (by decide) (by decide),
    campusFillStep_val_ne _ _ (by decide) (by decide),
    lmsStep_val_ne _ _ (by decide) (by decide) (by decide),
    attendanceStep_val_crit,
    gpaSteps_val_ne _ "attendance" (by decide) (by decide) (by decide)
      (by decide)]
  rw [gpaSteps_has_ne _ "attendance" (by decide) (by decide) (by decide)
    (by decide)]
  exact h

theorem preBehavioral_has_vlow (r : Row) :
    (preBehavioral r).has "lms_very_low"
      = (r.has "lms_logins" || r.has "lms_very_low") := by
  unfold preBehavioral
  rw [assignStep_has_ne _ _ (by decide), afterHoursStep_has_ne _ _ (by decide),
    campusStep_has_ne _ _ (by decide) (by decide), campusFillStep_has,
    lmsStep_has_vlow,
    attendanceStep_has_ne _ "lms_logins" (by decide) (by decide),
    attendanceStep_has_ne _ "lms_very_low" (by decide) (by decide),
    gpaSteps_has_ne _ "lms_logins" (by decide) (by decide) (by decide)
      (by decide),
    gpaSteps_has_ne _ "lms_very_low" (by decide) (by decide) (by decide)
      (by decide)]

theorem preBehavioral_val_vlow (r : Row) (h : r.has "lms_logins" = true) :
    (preBehavioral r).val "lms_very_low"
      = some (if (r.val "lms_logins").getD 0 ≤ 5 then 1 else 0) := by
  unfold preBehavioral
  rw [assignStep_val_ne _ _ (by decide) (by decide),
    afterHoursStep_val_ne _ _ (by decide) (by decide),
    campusStep_val_ne _ _ (by decide) (by decide),
    campusFillStep_val_ne _ _ (by decide) (by decide),
    lmsStep_val_vlow,
    attendanceStep_val_ne _ "lms_logins" (by decide) (by decide) (by decide),
    gpaSteps_val_ne _ "lms_logins" (by decide) (by decide) (by decide)
      (by decide)]
  rw [attendanceStep_has_ne _ "lms_logins" (by decide) (by decide),
    gpaSteps_has_ne _ "lms_logins" (by decide) (by decide) (by decide)
      (by decide)]
  exact h

theorem preBehavioral_has_iso (r : Row) :
    (preBehavioral r).has "campus_isolated"
      = (r.has "facility_access" && r.has "library_visits"
         || r.has "campus_isolated") := by
  unfold preBehavioral
  rw [assignStep_has_ne _ _ (by decide), afterHoursStep_has_ne _ _ (by decide),
    campusStep_has_iso, campusFillStep_has, campusFillStep_has,
    campusFillStep_has,
    lmsStep_has_ne _ "facility_access" (by decide) (by decide),
    lmsStep_has_ne _ "library_visits" (by decide) (by decide),
    lmsStep_has_ne _ "campus_isolated" (by decide) (by decide),
    attendanceStep_has_ne _ "facility_access" (by decide) (by decide),
    attendanceStep_has_ne _ "library_visits" (by decide) (by decide),
    attendanceStep_has_ne _ "campus_isolated" (by decide) (by decide),
    gpaSteps_has_ne _ "facility_access" (by decide) (by decide) (by decide)
      (by decide),
    gpaSteps_has_ne _ "library_visits" (by decide) (by decide) (by decide)
      (by decide),
    gpaSteps_has_ne _ "campus_isolated" (by decide) (by decide) (by decide)
      (by decide)]

theorem preBehavioral_val_iso (r : Row)
    (hf : r.has "facility_access" = true)
    (hl : r.has "library_visits" = true) :
    (preBehavioral r).val "campus_isolated"
      = some (if (r.val "facility_access").getD 0
              + (r.val "library_visits").getD 0 < 3 then 1 else 0) := by
  unfold preBehavioral
  rw [assignStep_val_ne _ _ (by decide) (by decide),
    afterHoursStep_val_ne _ _ (by decide) (by decide),
    campusStep_val_iso, campusFillStep_val_fac, campusFillStep_val_lib,
    lmsStep_val_ne _ "facility_access" (by decide) (by decide) (by decide),
    lmsStep_val_ne _ "library_visits" (by decide) (by decide) (by decide),
    attendanceStep_val_ne _ "facility_access" (by decide) (by decide)
      (by decide),
    attendanceStep_val_ne _ "library_visits" (by decide) (by decide)
      (by decide),
    gpaSteps_val_ne _ "facility_access" (by decide) (by decide) (by decide)
      (by decide),
    gpaSteps_val_ne _ "library_visits" (by decide) (by decide) (by decide)
      (by decide), Option.getD_some, Option.getD_some]
  · rw [lmsStep_has_ne _ "library_visits" (by decide) (by decide),
      attendanceStep_has_ne _ "library_visits" (by decide) (by decide),
      gpaSteps_has_ne _ "library_visits" (by decide) (by decide) (by decide)
        (by decide)]
    exact hl
  · rw [lmsStep_has_ne _ "facility_access" (by decide) (by decide),
      attendanceStep_has_ne _ "facility_access" (by decide) (by decide),
      gpaSteps_has_ne _ "facility_access" (by decide) (by decide) (by decide)
        (by decide)]
    exact hf
  · rw [campusFillStep_has, campusFillStep_has,
      lmsStep_has_ne _ "facility_access" (by decide) (by decide),
      lmsStep_has_ne _ "library_visits" (by decide) (by decide),
      attendanceStep_has_ne _ "facility_access" (by decide) (by decide),
      attendanceStep_has_ne _ "library_visits" (by decide) (by decide),
      gpaSteps_has_ne _ "facility_access" (by decide) (by decide) (by decide)
        (by decide),
      gpaSteps_has_ne _ "library_visits" (by decide) (by decide) (by decide)
        (by decide), hf, hl]
    rfl

theorem preBehavioral_has_high (r : Row) :
    (preBehavioral r).has "high_after_hours"
      = (r.has "after_hours_wifi" || r.has "high_after_hours") := by
  unfold preBehavioral
  rw [assignStep_has_ne _ _ (by decide), afterHoursStep_has_high,
    campusStep_has_ne _ "after_hours_wifi" (by decide) (by decide),
    campusStep_has_ne _ "high_after_hours" (by decide) (by decide),
    campusFillStep_has, campusFillStep_has,
    lmsStep_has_ne _ "after_hours_wifi" (by decide) (by decide),
    lmsStep_has_ne _ "high_after_hours" (by decide) (by decide),
    attendanceStep_has_ne _ "after_hours_wifi" (by decide) (by decide),
    attendanceStep_has_ne _ "high_after_hours" (by decide) (by decide),
    gpaSteps_has_ne _ "after_hours_wifi" (by decide) (by decide) (by decide)
      (by decide),
    gpaSteps_has_ne _ "high_after_hours" (by decide) (by decide) (by decide)
      (by decide)]

theorem preBehavioral_val_high (r : Row)
    (h : r.has "after_hours_wifi" = true) :
    (preBehavioral r).val "high_after_hours"
      = some (if 10 < (r.val "after_hours_wifi").getD 0 then 1 else 0) := by
  unfold preBehavioral
  rw [assignStep_val_ne _ _ (by decide) (by decide), afterHoursStep_val_high,
    campusStep_val_ne _ "after_hours_wifi" (by decide) (by decide),
    campusFillStep_val_ne _ "after_hours_wifi" (by decide) (by decide),
    lmsStep_val_ne _ "after_hours_wifi" (by decide) (by decide) (by decide),
    attendanceStep_val_ne _ "after_hours_wifi" (by decide) (by decide)
      (by decide),
    gpaSteps_val_ne _ "after_hours_wifi" (by decide) (by decide) (by decide)
      (by decide)]
  rw [campusStep_has_ne _ "after_hours_wifi" (by decide) (by decide),
    campusFillStep_has,
    lmsStep_has_ne _ "after_hours_wifi" (by decide) (by decide),
    attendanceStep_has_ne _ "after_hours_wifi" (by decide) (by decide),
    gpaSteps_has_ne _ "after_hours_wifi" (by decide) (by decide) (by decide)
      (by decide)]
  exact h

theorem preBehavioral_has_low (r : Row) :
    (preBehavioral r).has "low_assignments"
      = (r.has "assignment_submissions" || r.has "low_assignments") := by
  unfold preBehavioral
  rw [assignStep_has_low,
    afterHoursStep_has_ne _ "assignment_submissions" (by decide),
    afterHoursStep_has_ne _ "low_assignments" (by decide),
    campusStep_has_ne _ "assignment_submissions" (by decide) (by decide),
    campusStep_has_ne _ "low_assignments" (by decide) (by decide),
    campusFillStep_has, campusFillStep_has,
    lmsStep_has_ne _ "assignment_submissions" (by decide) (by decide),
    lmsStep_has_ne _ "low_assignments" (by decide) (by decide),
    attendanceStep_has_ne _ "assignment_submissions" (by decide) (by decide),
    attendanceStep_has_ne _ "low_assignments" (by decide) (by decide),
    gpaSteps_has_ne _ "assignment_submissions" (by decide) (by decide)
      (by decide) (by decide),
    gpaSteps_has_ne _ "low_assignments" (by decide) (by decide) (by decide)
      (by decide)]

theorem preBehavioral_val_low (r : Row)
    (h : r.has "assignment_submissions" = true) :
    (preBehavioral r).val "low_assignments"
      = some (if (r.val "assignment_submissions").getD 0 < 5
              then 1 else 0) := by
  unfold preBehavioral
  rw [assignStep_val_low,
    afterHoursStep_val_ne _ "assignment_submissions" (by decide) (by decide),
    campusStep_val_ne _ "assignment_submissions" (by decide) (by decide),
    campusFillStep_val_ne _ "assignment_submissions" (by decide) (by decide),
    lmsStep_val_ne _ "assignment_submissions" (by decide) (by decide)
      (by decide),
    attendanceStep_val_ne _ "assignment_submissions" (by decide) (by decide)
      (by decide),
    gpaSteps_val_ne _ "assignment_submissions" (by decide) (by decide)
      (by decide) (by decide)]
  rw [afterHoursStep_has_ne _ "assignment_submissions" (by decide),
    campusStep_has_ne _ "assignment_submissions" (by decide) (by decide),
    campusFillStep_has,
    lmsStep_has_ne _ "assignment_submissions" (by decide) (by decide),
    attendanceStep_has_ne _ "assignment_submissions" (by decide) (by decide),
    gpaSteps_has_ne _ "assignment_submissions" (by decide) (by decide)
      (by decide) (by decide)]
  exact h

theorem preBehavioral_val_decline (r : Row) :
    (preBehavioral r).val "gpa_decline"
      = (gpaDeclineStep r).val "gpa_decline" := by
  unfold preBehavioral
  rw [assignStep_val_ne _ _ (by decide) (by decide),
    afterHoursStep_val_ne _ _ (by decide) (by decide),
    campusStep_val_ne _ _ (by decide) (by decide),
    campusFillStep_val_ne _ _ (by decide) (by decide),
    lmsStep_val_ne _ _ (by decide) (by decide) (by decide),
    attendanceStep_val_ne _ _ (by decide) (by decide) (by decide),
    gpaSem3DeclineStep_val_ne _ _ (by decide),
    gpaSem2DeclineStep_val_ne _ _ (by decide)]

theorem preBehavioral_has_decline (r : Row) :
    (preBehavioral r).has "gpa_decline"
      = (gpaDeclineStep r).has "gpa_decline" := by
  unfold preBehavioral
  rw [assignStep_has_ne _ _ (by decide),
    afterHoursStep_has_ne _ _ (by decide),
    campusStep_has_ne _ _ (by decide) (by decide),
    campusFillStep_has,
    lmsStep_has_ne _ _ (by decide) (by decide),
    attendanceStep_has_ne _ _ (by decide) (by decide),
    gpaSem3DeclineStep_has_ne _ _ (by decide),
    gpaSem2DeclineStep_has_ne _ _ (by decide)]

theorem preBehavioral_has_frame (r : Row) (x : Col)
    (h : x ∉ engineeredCols) :
    (preBehavioral r).has x = r.has x := by
  simp only [engineeredCols, List.mem_cons, List.not_mem_nil, or_false] at h
  push_neg at h
  obtain ⟨h1, h2, h3, h4, h5, h6, h7, h8, h9, h10, h11, h12, h13⟩ := h
  unfold preBehavioral
  rw [assignStep_has_ne _ _ h12, afterHoursStep_has_ne _ _ h11,
    campusStep_has_ne _ _ h9 h10, campusFillStep_has,
    lmsStep_has_ne _ _ h7 h8, attendanceStep_has_ne _ _ h5 h6,
    gpaSteps_has_ne _ _ h1 h2 h3 h4]

theorem engineer_eq (r0 r1 : Row) (h : engineer_features r0 = some r1) :
    r1 = behavioralStep (preBehavioral (gpaFillStep r0)) := by
  unfold engineer_features at h
  by_cases hg : ((gpaFillStep r0).has "gpa_sem1"
      && (gpaFillStep r0).has "gpa_sem3"
      && !((gpaFillStep r0).has "gpa_sem2")) = true
  · rw [if_pos hg] at h
    exact absurd h (by simp)
  · rw [if_neg hg] at h
    exact (Option.some.inj h).symm

theorem engineered_has_frame (r0 r1 : Row)
    (h : engineer_features r0 = some r1) (x : Col)
    (hx : x ∉ engineeredCols) :
    r1.has x = r0.has x := by
  have h13 : x ≠ "behavioral_risk_score" := by
    intro he
    exact hx (by simp [engineeredCols, he])
  rw [engineer_eq r0 r1 h, behavioralStep_has_ne _ _ h13,
    preBehavioral_has_frame _ _ hx, gpaFillStep_has]

theorem engineer_of_sem2 (r : Row) (h2 : r.has "gpa_sem2" = true) :
    engineer_features r
      = some (behavioralStep (preBehavioral (gpaFillStep r))) := by
  unfold engineer_features
  rw [if_neg]
  simp [gpaFillStep_has, h2]

theorem engineer_of_nosem1 (r : Row) (h : r.has "gpa_sem1" = false) :
    engineer_features r
      = some (behavioralStep (preBehavioral (gpaFillStep r))) := by
  unfold engineer_features
  rw [if_neg]
  simp [gpaFillStep_has, h]

theorem engineer_of_nosem3 (r : Row) (h : r.has "gpa_sem3" = false) :
    engineer_features r
      = some (behavioralStep (preBehavioral (gpaFillStep r))) := by
  unfold engineer_features
  rw [if_neg]
  simp [gpaFillStep_has, h]

/-- A resident pipeline state holding a trained model with two features. -/
def c9State : PipelineState :=
  { model := some (), feature_names := ["gpa_sem1", "attendance"],
    is_trained := true, last_trained := some "2025-01-01 00:00:00" }

/-- C2: the risk score is the probability of class high plus half the
probability of class medium, clipped to the unit interval, and the tier is
determined by that score alone via the fixed thresholds: high exactly when the
score is at least 0.7, medium exactly when it is in [0.4, 0.7), low exactly
when it is below 0.4; in particular 0.70 maps to high, 0.6999 to medium, 0.40
to medium and 0.3999 to low. -/
theorem C2_risk_score_and_tier :
    (∀ pLow pMedium pHigh : ℚ,
      predictScoreTier pLow pMedium pHigh
        = (risk_score pLow pMedium pHigh,
           tierOf (risk_score pLow pMedium pHigh))
      ∧ risk_score pLow pMedium pHigh = clip01 (pHigh + 0.5 * pMedium))
    ∧ (∀ s : ℚ, (tierOf s = "high" ↔ 0.7 ≤ s)
      ∧ (tierOf s = "medium" ↔ 0.4 ≤ s ∧ s < 0.7)
      ∧ (tierOf s = "low" ↔ s < 0.4))
    ∧ tierOf 0.7 = "high" ∧ tierOf 0.6999 = "medium"
    ∧ tierOf 0.4 = "medium" ∧ tierOf 0.3999 = "low" := by
  refine ⟨fun pLow pMedium pHigh => ⟨rfl, rfl⟩, fun s => ?_,
    by norm_num [tierOf], by norm_num [tierOf], by norm_num [tierOf],
    by norm_num [tierOf]⟩
  unfold tierOf
  split_ifs with h1 h2
  · have hn7 : ¬ s < 0.7 := not_lt.mpr h1
    have hn4 : ¬ s < 0.4 := not_lt.mpr (le_trans (by norm_num) h1)
    simp [h1, hn7, hn4]
  · have h7 : s < 0.7 := not_le.mp h1
    have hn4 : ¬ s < 0.4 := not_lt.mpr h2
    simp [h1, h2, h7, hn4]
  · have h4 : s < 0.4 := not_le.mp h2
    simp [h1, h2, h4]

/-- C10: when the three class probabilities are nonnegative and sum to one,
the quantity P high plus half P medium already lies inside the unit interval,
so the clipping step never changes the returned risk score. -/
theorem C10_clip_never_fires (pLow pMedium pHigh : ℚ) (h0 : 0 ≤ pLow)
    (h1 : 0 ≤ pMedium) (h2 : 0 ≤ pHigh)
    (hsum : pLow + pMedium + pHigh = 1) :
    risk_score pLow pMedium pHigh = pHigh + 0.5 * pMedium := by
  unfold risk_score clip01
  rw [max_eq_left (by linarith), min_eq_left (by linarith)]

/-- Witness for C10 at the probability vector (1/4, 1/4, 1/2). -/
theorem C10_clip_never_fires_witness :
    risk_score (1/4) (1/4) (1/2) = 1/2 + 0.5 * (1/4) :=
  C10_clip_never_fires (1/4) (1/4) (1/2) (by norm_num) (by norm_num)
    (by norm_num) (by norm_num)

/-- C9: saving a state that holds a model and then loading from the produced
store restores the feature-name list exactly, in content and order, together
with the trained flag. -/
theorem C9_persistence_roundtrip (st st0 : PipelineState) (store : ModelStore)
    (h : st.model.isSome = true) :
    (save_model st store).1 = true
    ∧ (load_model st0 (save_model st store).2).1 = true
    ∧ (load_model st0 (save_model st store).2).2.feature_names
      = st.feature_names
    ∧ (load_model st0 (save_model st store).2).2.is_trained
      = st.is_trained := by
  obtain ⟨u, hu⟩ := Option.isSome_iff_exists.mp h
  simp [save_model, load_model, hu]

/-- Witness for C9 at a concrete trained state and the empty store. -/
theorem C9_persistence_roundtrip_witness :
    (save_model c9State emptyStore).1 = true
    ∧ (load_model initState (save_model c9State emptyStore).2).1 = true
    ∧ (load_model initState (save_model c9State emptyStore).2).2.feature_names
      = c9State.feature_names
    ∧ (load_model initState (save_model c9State emptyStore).2).2.is_trained
      = c9State.is_trained :=
  C9_persistence_roundtrip c9State initState emptyStore (by decide)

/-- C6 counterexample: with no resident and no persisted model, the
module-level predict_student helper returns the error dictionary as an
ordinary value instead of raising; nothing is raised at all, refuting the
claim that every prediction entry point raises ModelNotTrainedError. -/
theorem C6_counterexample_swallowed :
    predict_student initState emptyStore
      = Except.ok (PredictStudentOutcome.errorDict "Model not trained")
    ∧ isRaised (predict_student initState emptyStore) = false :=
  ⟨rfl, rfl⟩

/-- C6 amended: with no resident and no persisted model, MLPipeline.predict
and MLPipeline.predict_single raise ValueError (the repository defines no
ModelNotTrainedError class), while the module-level predict_student helper
swallows the condition and returns an error dictionary as a normal value. -/
theorem C6_amended_valueError_and_swallow (st : PipelineState)
    (store : ModelStore) (h1 : st.is_trained = false)
    (h2 : store.modelBlob = none) :
    predictGuard st store
      = Except.error
          (PyError.valueError "Model not trained. Call train_model() first.")
    ∧ predictSingleGuard st store
      = Except.error (PyError.valueError "Model not trained")
    ∧ predict_student st store
      = Except.ok (PredictStudentOutcome.errorDict "Model not trained") := by
  have hl : load_model st store = (false, st) := by
    simp [load_model, h2]
  refine ⟨?_, ?_, ?_⟩ <;>
    simp [predictGuard, predictSingleGuard, predict_student, hl, h1]

/-- Witness for the amended C6 at the fresh pipeline and the empty store. -/
theorem C6_amended_witness :
    predictGuard initState emptyStore
      = Except.error
          (PyError.valueError "Model not trained. Call train_model() first.")
    ∧ predictSingleGuard initState emptyStore
      = Except.error (PyError.valueError "Model not trained")
    ∧ predict_student initState emptyStore
      = Except.ok (PredictStudentOutcome.errorDict "Model not trained") :=
  C6_amended_valueError_and_swallow initState emptyStore rfl rfl

/-- C5 counterexample: training on a table without the risk_label column
raises ValueError, not a ConfigurationError (no such class exists in the
repository). -/
theorem C5_counterexample_valueError_not_config :
    train_model c5Row
      = Except.error (PyError.valueError "No risk_label column found in data")
    ∧ isConfigError (train_model c5Row) = false :=
  ⟨rfl, rfl⟩

/-- C5 amended: when the input table lacks the risk_label column and feature
engineering succeeds, train_model raises ValueError with the message from
line 257; the repository defines no ConfigurationError class, and there is no
explicit emptiness check in train_model. -/
theorem C5_amended_valueError (r r1 : Row)
    (h : engineer_features r = some r1)
    (hlab : r.has "risk_label" = false) :
    train_model r
      = Except.error
          (PyError.valueError "No risk_label column found in data") := by
  have hr : r1.has "risk_label" = false := by
    rw [engineered_has_frame r r1 h _ (by decide)]
    exact hlab
  unfold train_model
  rw [h]
  simp [hr]

/-- Witness for the amended C5 at a concrete row lacking risk_label. -/
theorem C5_amended_witness :
    train_model c5Row
      = Except.error
          (PyError.valueError "No risk_label column found in data") :=
  C5_amended_valueError c5Row _ (engineer_of_nosem1 c5Row rfl) rfl

/-- C1 counterexample: a model trained on a table holding attendance and LMS
columns records a six-name canonical list, but a prediction on data missing
the attendance column produces a vector aligned to a recomputed three-name
list: the missing columns are dropped, yielding a shifted and truncated
vector, not the training-time alignment with zero fill. -/
theorem C1_counterexample_feature_skew :
    train_feature_names c1TrainRow
      = some ["attendance", "attendance_critical", "attendance_low",
              "lms_logins", "lms_very_low", "behavioral_risk_score"]
    ∧ (predictSelect initState c1InferRow).map (fun p => p.2.1)
      = some ["lms_logins", "lms_very_low", "behavioral_risk_score"]
    ∧ (predictSelect initState c1InferRow).map (fun p => p.2.2.length)
      = some 3
    ∧ (["lms_logins", "lms_very_low", "behavioral_risk_score"] : List Col)
      ≠ ["attendance", "attendance_critical", "attendance_low",
         "lms_logins", "lms_very_low", "behavioral_risk_score"] := by
  refine ⟨rfl, rfl, rfl, by decide⟩

/-- C1 amended: prediction recomputes the feature list from the columns
present in the supplied data, overwriting the stored feature_names; the
selected vector is aligned to this recomputed list and is identical whatever
list the pipeline state carried, and a candidate column absent from the
engineered data is dropped from the vector rather than zero-filled. -/
theorem C1_amended_list_recomputed (st1 st2 : PipelineState) (r r1 : Row)
    (h : engineer_features r = some r1) :
    predictSelect st1 r
      = some ({ st1 with
                  feature_names := numeric_features.filter (fun c => r1.has c) },
              numeric_features.filter (fun c => r1.has c),
              (numeric_features.filter (fun c => r1.has c)).map
                (fun c => (r1.val c).getD 0))
    ∧ (predictSelect st1 r).map (fun p => p.2)
      = (predictSelect st2 r).map (fun p => p.2)
    ∧ ∀ c : Col, r1.has c = false →
        c ∉ numeric_features.filter (fun c => r1.has c) := by
  refine ⟨?_, ?_, ?_⟩
  · simp [predictSelect, h, prepare_features]
  · simp [predictSelect, h]
  · intro c hc hmem
    rw [List.mem_filter] at hmem
    rw [hc] at hmem
    exact Bool.noConfusion hmem.2

/-- Witness for the amended C1: the selected vector on the inference row is
independent of the feature list stored in the pipeline state. -/
theorem C1_amended_witness :
    (predictSelect initState c1InferRow).map (fun p => p.2)
      = (predictSelect c9State c1InferRow).map (fun p => p.2) :=
  (C1_amended_list_recomputed initState c9State c1InferRow _
    (engineer_of_nosem1 c1InferRow rfl)).2.1

/-- C3 counterexample: on a row whose gpa_sem1 cell is NaN while gpa_sem3 is
3, the missing value defaults to 0 before subtraction, so gpa_decline is
computed as minus 3, not 0 as the claim states for an absent GPA. -/
theorem C3_counterexample_missing_gpa :
    (engineer_features c3Row).map (fun r1 => r1.val "gpa_decline")
      = some (some ((0 : ℚ) - 3))
    ∧ ((0 : ℚ) - 3) = -3 ∧ ((0 : ℚ) - 3) ≠ 0 :=
  ⟨rfl, by norm_num, by norm_num⟩

/-- C3 amended: gpa_decline is created only when both the gpa_sem1 and
gpa_sem3 columns exist, and equals the difference of the two cells after each
missing value has been defaulted to 0, so a single missing GPA contributes 0
to the subtraction instead of forcing the result to 0; when either column is
absent the feature is absent too. -/
theorem C3_amended_gpa_decline (r : Row) :
    (r.has "gpa_sem1" = true → r.has "gpa_sem2" = true →
      r.has "gpa_sem3" = true →
      (engineer_features r).map (fun r1 => r1.val "gpa_decline")
        = some (some ((r.val "gpa_sem1").getD 0
                      - (r.val "gpa_sem3").getD 0)))
    ∧ ((r.has "gpa_sem1" = false ∨ r.has "gpa_sem3" = false) →
      r.has "gpa_decline" = false →
      (engineer_features r).map (fun r1 => r1.has "gpa_decline")
        = some false) := by
  constructor
  · intro h1 h2 h3
    rw [engineer_of_sem2 r h2, Option.map_some']
    rw [behavioralStep_val_ne _ _ (by decide), preBehavioral_val_decline,
      gpaDeclineStep_val_decline]
    · rw [gpaFillStep_val1 _ h1, gpaFillStep_val3 _ h3]
      simp [cellSub]
    · rw [gpaFillStep_has, gpaFillStep_has, h1, h3]
      rfl
  · intro hor hnd
    have hsucc : engineer_features r
        = some (behavioralStep (preBehavioral (gpaFillStep r))) := by
      rcases hor with h | h
      · exact engineer_of_nosem1 r h
      · exact engineer_of_nosem3 r h
    rw [hsucc, Option.map_some']
    rw [behavioralStep_has_ne _ _ (by decide), preBehavioral_has_decline,
      gpaDeclineStep_has_decline, gpaFillStep_has, gpaFillStep_has,
      gpaFillStep_has]
    rcases hor with h | h <;> simp [h, hnd]

/-- Witness for the amended C3 at the GPA sequence 3.6, 3.2, 2.4, giving a
decline of 1.2. -/
theorem C3_amended_witness :
    (engineer_features c3FullRow).map (fun r1 => r1.val "gpa_decline")
      = some (some ((3.6 : ℚ) - 2.4))
    ∧ ((3.6 : ℚ) - 2.4) = 6/5 := by
  constructor
  · rw [(C3_amended_gpa_decline c3FullRow).1 rfl rfl rfl]
    rfl
  · norm_num

/-! Stable descending sort: permutation, sortedness and stability. -/

theorem insertDesc_perm {α : Type} (key : α → ℚ) (x : α) (l : List α) :
    (insertDesc key x l).Perm (x :: l) := by
  induction l with
  | nil => exact List.Perm.refl _
  | cons h t ih =>
    unfold insertDesc
    split
    · exact List.Perm.refl _
    · exact (List.Perm.cons h ih).trans (List.Perm.swap x h t)

theorem mem_insertDesc {α : Type} (key : α → ℚ) (x y : α) (l : List α) :
    y ∈ insertDesc key x l ↔ y = x ∨ y ∈ l := by
  rw [(insertDesc_perm key x l).mem_iff, List.mem_cons]

theorem insertDesc_sorted {α : Type} (key : α → ℚ) (x : α) (l : List α)
    (h : l.Pairwise (fun a b => key b ≤ key a)) :
    (insertDesc key x l).Pairwise (fun a b => key b ≤ key a) := by
  induction l with
  | nil => simp [insertDesc]
  | cons hd t ih =>
    have h1 : ∀ b ∈ t, key b ≤ key hd := (List.pairwise_cons.mp h).1
    have h2 : t.Pairwise (fun a b => key b ≤ key a) :=
      (List.pairwise_cons.mp h).2
    unfold insertDesc
    split
    next hle =>
      rw [List.pairwise_cons]
      refine ⟨?_, h⟩
      intro y hy
      rcases List.mem_cons.mp hy with rfl | hy
      · exact hle
      · exact le_trans (h1 y hy) hle
    next hgt =>
      have hlt : key x < key hd := not_le.mp hgt
      rw [List.pairwise_cons]
      refine ⟨?_, ih h2⟩
      intro y hy
      rcases (mem_insertDesc key x y t).mp hy with rfl | hy
      · exact le_of_lt hlt
      · exact h1 y hy

theorem stableSortDesc_perm {α : Type} (key : α → ℚ) (l : List α) :
    (stableSortDesc key l).Perm l := by
  induction l with
  | nil => exact List.Perm.refl _
  | cons h t ih =>
    exact (insertDesc_perm key h (stableSortDesc key t)).trans
      (List.Perm.cons h ih)

theorem stableSortDesc_sorted {α : Type} (key : α → ℚ) (l : List α) :
    (stableSortDesc key l).Pairwise (fun a b => key b ≤ key a) := by
  induction l with
  | nil => simp [stableSortDesc]
  | cons h t ih => exact insertDesc_sorted key h _ ih

theorem insertDesc_filter {α : Type} (key : α → ℚ) (x : α) (l : List α)
    (q : ℚ) :
    (insertDesc key x l).filter (fun e => key e == q)
      = if key x == q then x :: l.filter (fun e => key e == q)
        else l.filter (fun e => key e == q) := by
  induction l with
  | nil =>
    by_cases hx : (key x == q) = true <;>
      simp [insertDesc, List.filter_cons, hx]
  | cons h t ih =>
    unfold insertDesc
    split
    next hle => rw [List.filter_cons]
    next hgt =>
      have hlt : key x < key h := not_le.mp hgt
      rw [List.filter_cons, ih]
      by_cases hx : (key x == q) = true
      · have hh : ¬ ((key h == q) = true) := by
          intro hh
          rw [beq_iff_eq] at hx hh
          exact absurd (hh.trans hx.symm) (ne_of_gt hlt)
        simp [List.filter_cons, hx, hh]
      · simp [List.filter_cons, hx]

theorem stableSortDesc_filter {α : Type} (key : α → ℚ) (l : List α) (q : ℚ) :
    (stableSortDesc key l).filter (fun e => key e == q)
      = l.filter (fun e => key e == q) := by
  induction l with
  | nil => rfl
  | cons h t ih =>
    unfold stableSortDesc
    rw [insertDesc_filter, ih, List.filter_cons]

/-- C7: the explanation output is the stable descending sort of the per
feature entries by absolute contribution, truncated to the top 6; the sorted
list is a permutation of the entries, pairwise sorted by descending absolute
value, and stability holds in the tie-class sense: filtering any absolute
value class preserves the original feature order. Each entry carries direction
1 exactly when its contribution is strictly positive and -1 otherwise
(including zero), together with the raw feature value of the instance. -/
theorem C7_explainer_ranking (fmt : Col → String) (x : Col → Option ℚ)
    (names : List Col) (shapRow : List ℚ) :
    generate_shap_explanation fmt x names shapRow
      = (stableSortDesc (fun e => |e.value|)
          (mkShapEntries fmt x names shapRow)).take 6
    ∧ (generate_shap_explanation fmt x names shapRow).length ≤ 6
    ∧ (stableSortDesc (fun e => |e.value|)
        (mkShapEntries fmt x names shapRow)).Perm
        (mkShapEntries fmt x names shapRow)
    ∧ (stableSortDesc (fun e => |e.value|)
        (mkShapEntries fmt x names shapRow)).Pairwise
        (fun a b => |b.value| ≤ |a.value|)
    ∧ (∀ q : ℚ,
        (stableSortDesc (fun e => |e.value|)
            (mkShapEntries fmt x names shapRow)).filter
            (fun e => |e.value| == q)
          = (mkShapEntries fmt x names shapRow).filter
              (fun e => |e.value| == q))
    ∧ (mkShapEntries fmt x names shapRow).map (fun e => e.dir)
      = (names.zip shapRow).map
          (fun p => if (0 : ℚ) < p.2 then (1 : Int) else -1)
    ∧ (mkShapEntries fmt x names shapRow).map (fun e => e.feature_value)
      = (names.zip shapRow).map (fun p => (x p.1).getD 0)
    ∧ (mkShapEntries fmt x names shapRow).map (fun e => e.value)
      = (names.zip shapRow).map (fun p => p.2) := by
  refine ⟨rfl, ?_, stableSortDesc_perm _ _, stableSortDesc_sorted _ _,
    fun q => stableSortDesc_filter _ _ q, ?_, ?_, ?_⟩
  · simp only [generate_shap_explanation, List.length_take]
    exact min_le_left _ _
  · unfold mkShapEntries
    rw [List.map_map]
    rfl
  · unfold mkShapEntries
    rw [List.map_map]
    rfl
  · unfold mkShapEntries
    rw [List.map_map]
    rfl

/-! Lemmas for the behavioral risk score. -/

theorem behavioralFactors_filter_form (r : Row) :
    behavioralFactors r
      = (flagCols.filter (fun c => r.has c)).map
          (fun c => (r.val c).map (fun v => v * flagWeight c)) := by
  unfold behavioralFactors flagCols
  by_cases h1 : r.has "attendance_critical" = true <;>
  by_cases h2 : r.has "lms_very_low" = true <;>
  by_cases h3 : r.has "campus_isolated" = true <;>
  by_cases h4 : r.has "high_after_hours" = true <;>
  by_cases h5 : r.has "low_assignments" = true <;>
    simp [h1, h2, h3, h4, h5, flagWeight, List.filter_cons, mul_one,
      Option.map_id]

theorem osum_map_some (l : List ℚ) : osum (l.map some) = some l.sum := by
  induction l with
  | nil => rfl
  | cons a t ih => simp [osum, List.map_cons, List.foldr] at ih ⊢; rw [ih]

theorem behavioralStep_val_self (r : Row)
    (h : (behavioralFactors r).length ≠ 0) :
    (behavioralStep r).val "behavioral_risk_score"
      = (osum (behavioralFactors r)).map
          (fun s => s / ((behavioralFactors r).length : ℚ)) := by
  unfold behavioralStep
  rw [if_pos h, Row.set_val_eq]

theorem behavioralStep_of_empty (r : Row)
    (h : (behavioralFactors r).length = 0) :
    behavioralStep r = r := by
  unfold behavioralStep
  rw [if_neg]
  simp [h]

theorem preBehavioral_has_behavioral (r : Row) :
    (preBehavioral r).has "behavioral_risk_score"
      = r.has "behavioral_risk_score" := by
  unfold preBehavioral
  rw [assignStep_has_ne _ _ (by decide),
    afterHoursStep_has_ne _ _ (by decide),
    campusStep_has_ne _ _ (by decide) (by decide), campusFillStep_has,
    lmsStep_has_ne _ _ (by decide) (by decide),
    attendanceStep_has_ne _ _ (by decide) (by decide),
    gpaSteps_has_ne _ _ (by decide) (by decide) (by decide) (by decide)]

set_option maxHeartbeats 2000000 in
/-- C4: on a clean raw row (no engineered column names present in the input),
whenever at least one of the five binary flags is computed, the engineered
behavioral_risk_score equals the weighted sum of the computed flags with
weights 3, 2, 2, 1, 1 divided by the count of contributing flags actually
present; when no flag is computed the feature is absent rather than an
error. -/
theorem C4_behavioral_weighted_mean (r0 r1 : Row)
    (hclean : ∀ c ∈ engineeredCols, r0.has c = false)
    (h : engineer_features r0 = some r1) :
    (flagCols.filter (fun c => r1.has c) ≠ [] →
      r1.val "behavioral_risk_score"
        = some (((flagCols.filter (fun c => r1.has c)).map
              (fun c => flagWeight c * (r1.val c).getD 0)).sum
            / ((flagCols.filter (fun c => r1.has c)).length : ℚ)))
    ∧ (flagCols.filter (fun c => r1.has c) = [] →
      r1.has "behavioral_risk_score" = false) := by
  have he := engineer_eq r0 r1 h
  rw [he]
  set rP := preBehavioral (gpaFillStep r0) with hrP
  have hcA : r0.has "attendance_critical" = false := hclean _ (by decide)
  have hcV : r0.has "lms_very_low" = false := hclean _ (by decide)
  have hcI : r0.has "campus_isolated" = false := hclean _ (by decide)
  have hcH : r0.has "high_after_hours" = false := hclean _ (by decide)
  have hcL : r0.has "low_assignments" = false := hclean _ (by decide)
  have hcB : r0.has "behavioral_risk_score" = false := hclean _ (by decide)
  have hHcrit : rP.has "attendance_critical" = r0.has "attendance" := by
    rw [hrP, preBehavioral_has_crit, gpaFillStep_has, gpaFillStep_has, hcA,
      Bool.or_false]
  have hHvlow : rP.has "lms_very_low" = r0.has "lms_logins" := by
    rw [hrP, preBehavioral_has_vlow, gpaFillStep_has, gpaFillStep_has, hcV,
      Bool.or_false]
  have hHiso : rP.has "campus_isolated"
      = (r0.has "facility_access" && r0.has "library_visits") := by
    rw [hrP, preBehavioral_has_iso, gpaFillStep_has, gpaFillStep_has,
      gpaFillStep_has, hcI, Bool.or_false]
  have hHhigh : rP.has "high_after_hours" = r0.has "after_hours_wifi" := by
    rw [hrP, preBehavioral_has_high, gpaFillStep_has, gpaFillStep_has, hcH,
      Bool.or_false]
  have hHlow : rP.has "low_assignments"
      = r0.has "assignment_submissions" := by
    rw [hrP, preBehavioral_has_low, gpaFillStep_has, gpaFillStep_has, hcL,
      Bool.or_false]
  have hHbeh : rP.has "behavioral_risk_score" = false := by
    rw [hrP, preBehavioral_has_behavioral, gpaFillStep_has, hcB]
  have hVcrit : r0.has "attendance" = true →
      rP.val "attendance_critical"
        = some (if (r0.val "attendance").getD 0 < 50 then 1 else 0) := by
    intro ha
    have ha2 : (gpaFillStep r0).has "attendance" = true := by
      rw [gpaFillStep_has]; exact ha
    rw [hrP, preBehavioral_val_crit _ ha2,
      gpaFillStep_val_ne _ _ (by decide) (by decide) (by decide)]
  have hVvlow : r0.has "lms_logins" = true →
      rP.val "lms_very_low"
        = some (if (r0.val "lms_logins").getD 0 ≤ 5 then 1 else 0) := by
    intro ha
    have ha2 : (gpaFillStep r0).has "lms_logins" = true := by
      rw [gpaFillStep_has]; exact ha
    rw [hrP, preBehavioral_val_vlow _ ha2,
      gpaFillStep_val_ne _ _ (by decide) (by decide) (by decide)]
  have hViso : r0.has "facility_access" = true →
      r0.has "library_visits" = true →
      rP.val "campus_isolated"
        = some (if (r0.val "facility_access").getD 0
                + (r0.val "library_visits").getD 0 < 3 then 1 else 0) := by
    intro hf hl
    have hf2 : (gpaFillStep r0).has "facility_access" = true := by
      rw [gpaFillStep_has]; exact hf
    have hl2 : (gpaFillStep r0).has "library_visits" = true := by
      rw [gpaFillStep_has]; exact hl
    rw [hrP, preBehavioral_val_iso _ hf2 hl2,
      gpaFillStep_val_ne _ _ (by decide) (by decide) (by decide),
      gpaFillStep_val_ne _ _ (by decide) (by decide) (by decide)]
  have hVhigh : r0.has "after_hours_wifi" = true →
      rP.val "high_after_hours"
        = some (if 10 < (r0.val "after_hours_wifi").getD 0
                then 1 else 0) := by
    intro ha
    have ha2 : (gpaFillStep r0).has "after_hours_wifi" = true := by
      rw [gpaFillStep_has]; exact ha
    rw [hrP, preBehavioral_val_high _ ha2,
      gpaFillStep_val_ne _ _ (by decide) (by decide) (by decide)]
  have hVlow : r0.has "assignment_submissions" = true →
      rP.val "low_assignments"
        = some (if (r0.val "assignment_submissions").getD 0 < 5
                then 1 else 0) := by
    intro ha
    have ha2 : (gpaFillStep r0).has "assignment_submissions" = true := by
      rw [gpaFillStep_has]; exact ha
    rw [hrP, preBehavioral_val_low _ ha2,
      gpaFillStep_val_ne _ _ (by decide) (by decide) (by decide)]
  have hfilter : flagCols.filter (fun c => (behavioralStep rP).has c)
      = flagCols.filter (fun c => rP.has c) := by
    apply List.filter_congr
    intro c hc
    simp only [flagCols, List.mem_cons, List.not_mem_nil, or_false] at hc
    rcases hc with rfl | rfl | rfl | rfl | rfl <;>
      exact behavioralStep_has_ne _ _ (by decide)
  have hvalflags : ∀ c ∈ flagCols, (behavioralStep rP).val c = rP.val c := by
    intro c hc
    simp only [flagCols, List.mem_cons, List.not_mem_nil, or_false] at hc
    rcases hc with rfl | rfl | rfl | rfl | rfl <;>
      exact behavioralStep_val_ne _ _ (by decide)
  have hsome : ∀ c ∈ flagCols.filter (fun c => rP.has c),
      rP.val c = some ((rP.val c).getD 0) := by
    intro c hc
    rw [List.mem_filter] at hc
    obtain ⟨hcf, hch⟩ := hc
    simp only [flagCols, List.mem_cons, List.not_mem_nil, or_false] at hcf
    rcases hcf with rfl | rfl | rfl | rfl | rfl
    · rw [hHcrit] at hch
      rw [hVcrit hch]
      rfl
    · rw [hHvlow] at hch
      rw [hVvlow hch]
      rfl
    · rw [hHiso, Bool.and_eq_true] at hch
      rw [hViso hch.1 hch.2]
      rfl
    · rw [hHhigh] at hch
      rw [hVhigh hch]
      rfl
    · rw [hHlow] at hch
      rw [hVlow hch]
      rfl
  have hfact : behavioralFactors rP
      = ((flagCols.filter (fun c => rP.has c)).map
          (fun c => (rP.val c).getD 0 * flagWeight c)).map some := by
    rw [behavioralFactors_filter_form, List.map_map]
    apply List.map_congr_left
    intro c hc
    show (rP.val c).map (fun v => v * flagWeight c)
      = some ((rP.val c).getD 0 * flagWeight c)
    rw [hsome c hc, Option.map_some', Option.getD_some]
  constructor
  · intro hne
    rw [hfilter] at hne
    have hlen0 : (behavioralFactors rP).length ≠ 0 := by
      rw [hfact]
      simp only [List.length_map]
      intro hz
      exact hne (List.length_eq_zero.mp hz)
    have hmapRHS :
        (flagCols.filter (fun c => rP.has c)).map
            (fun c => flagWeight c * ((behavioralStep rP).val c).getD 0)
          = (flagCols.filter (fun c => rP.has c)).map
              (fun c => (rP.val c).getD 0 * flagWeight c) := by
      apply List.map_congr_left
      intro c hc
      rw [hvalflags c (List.mem_of_mem_filter hc), mul_comm]
    rw [hfilter, hmapRHS, behavioralStep_val_self _ hlen0, hfact,
      osum_map_some]
    simp [List.length_map]
  · intro h0
    rw [hfilter] at h0
    have hlen : (behavioralFactors rP).length = 0 := by
      rw [hfact, h0]
      rfl
    rw [behavioralStep_of_empty _ hlen, hHbeh]

/-- The engineered row of the C4 witness input. -/
def c4Eng : Row := behavioralStep (preBehavioral (gpaFillStep c4Row))

/-- Witness for C4: with attendance 40 and 3 LMS logins, the two computed
flags are attendance_critical and lms_very_low, and the behavioral risk score
is their weighted mean (3 + 2) / 2 = 5/2. -/
theorem C4_behavioral_weighted_mean_witness :
    (engineer_features c4Row).map (fun r1 => r1.val "behavioral_risk_score")
      = some (some ((((flagCols.filter (fun c => c4Eng.has c)).map
            (fun c => flagWeight c * (c4Eng.val c).getD 0)).sum)
          / ((flagCols.filter (fun c => c4Eng.has c)).length : ℚ)))
    ∧ ((((flagCols.filter (fun c => c4Eng.has c)).map
            (fun c => flagWeight c * (c4Eng.val c).getD 0)).sum)
          / ((flagCols.filter (fun c => c4Eng.has c)).length : ℚ))
        = 5/2 := by
  have h : engineer_features c4Row = some c4Eng :=
    engineer_of_nosem1 c4Row rfl
  constructor
  · have hmain := (C4_behavioral_weighted_mean c4Row c4Eng (by decide) h).1
      (by decide)
    rw [h, Option.map_some', hmain]
  · have hfl : flagCols.filter (fun c => c4Eng.has c)
        = ["attendance_critical", "lms_very_low"] := rfl
    have hv1 : (c4Eng.val "attendance_critical").getD 0 = 1 := rfl
    have hv2 : (c4Eng.val "lms_very_low").getD 0 = 1 := rfl
    rw [hfl]
    simp [flagWeight, hv1, hv2]
    norm_num
